import Mathlib

/-
Verification of the video-service processing pipeline of this repository
(src/backend/video-service). The definitions below are a shallow embedding of

  * src/utils/validators.py          (validate_video_file)
  * src/models/video.py              (Video, VideoVariant, add_variant, VIDEO_VARIANTS)
  * src/services/video_processing_service.py
      (retry decorator, process_video, validate_format, scan_security,
       generate_variant, VARIANT_CONFIGS, RETRY_CONFIG,
       SUPPORTED_MIME_TYPES)

External collaborators (libmagic MIME detection, the ffprobe subprocess, the
clamav scanner, ffmpeg transcoding, S3 uploads and the event loop clock) are
modelled as parameters: each external call site draws its outcome from an
Env record, indexed by a per-stage call counter held in the pipeline state.
Byte buffers are modelled as List Nat (one Nat per byte).

Fields of the Python models that no claim mentions (ids, titles, timestamps,
the VideoMetadata payload carried by variants, metric dictionaries) are not
modelled; the state carries exactly the fields the claims are about, plus
counters recording how often each external stage was invoked.
-/

set_option autoImplicit false

namespace VideoService

/-! ## Constants from src/utils/validators.py -/

/-- validators.py: ALLOWED_VIDEO_FORMATS = ['.mp4', '.mov', '.avi', '.mkv'] -/
def ALLOWED_VIDEO_FORMATS : List String := [".mp4", ".mov", ".avi", ".mkv"]

/-- validators.py: MAX_VIDEO_SIZE_BYTES = 5_368_709_120 (5 GiB) -/
def MAX_VIDEO_SIZE_BYTES : Nat := 5368709120

/-- validators.py: VALID_MIME_TYPES -/
def VALID_MIME_TYPES : List String :=
  ["video/mp4", "video/quicktime", "video/x-msvideo", "video/x-matroska"]

/-! ## validate_video_file (src/utils/validators.py lines 41-105) -/

/-- Python `filename[filename.rfind('.'):].lower() if '.' in filename else ''`:
the substring from the last dot (inclusive), lowercased; empty when the
filename has no dot. -/
def extOf (filename : String) : String :=
  if filename.data.contains '.' then
    String.mk (('.' :: (filename.data.reverse.takeWhile (fun c => c ≠ '.')).reverse).map
      Char.toLower)
  else ""

/-- Python `file_content[-32:]`: the last 32 bytes (the whole buffer when it
is shorter than 32 bytes, matching the Python slice). -/
def last32 (content : List Nat) : List Nat := content.drop (content.length - 32)

/-- Byte values of the marker b'mdat'. -/
def mdatMarker : List Nat := [109, 100, 97, 116]

/-- Byte values of the marker b'moov'. -/
def moovMarker : List Nat := [109, 111, 111, 118]

/-- Python `any(file_content[-32:].endswith(term) for term in [b'mdat', b'moov'])`. -/
def endsWithMarker (content : List Nat) : Bool :=
  mdatMarker.isSuffixOf (last32 content) || moovMarker.isSuffixOf (last32 content)

/-- Result of validate_video_file. The Python function returns a
(bool, str, dict) triple; the metadata dict is not referenced by any claim.
The extra field mimeProbed records whether the external libmagic call
(`magic.from_buffer`, the only call in the function that leaves the byte
buffer) was reached before the function returned. -/
structure FVResult where
  ok : Bool
  reason : String
  mimeProbed : Bool
  deriving DecidableEq, Repr

/-- Shallow embedding of validate_video_file (validators.py lines 41-105).
mimeRes is the outcome of the external `magic.from_buffer` call on the first
2048 bytes: `Except.ok m` when libmagic returns MIME string m, `Except.error e`
when it raises. The checks appear in source order: empty content, maximum
size, filename extension, MIME type, header bytes, and (under
strict_validation) minimum size and the mdat/moov termination marker. -/
def validate_video_file (file_content : List Nat) (filename : String)
    (strict_validation : Bool) (mimeRes : Except String String) : FVResult :=
  if file_content = [] then
    { ok := false, reason := "Empty file content", mimeProbed := false }
  else if file_content.length > MAX_VIDEO_SIZE_BYTES then
    { ok := false, reason := "File size exceeds maximum limit of 5.0GB", mimeProbed := false }
  else if ¬ (extOf filename ∈ ALLOWED_VIDEO_FORMATS) then
    { ok := false, reason := "Unsupported file format. Allowed formats: .mp4, .mov, .avi, .mkv",
      mimeProbed := false }
  else
    match mimeRes with
    | Except.error e =>
      { ok := false, reason := "Failed to detect MIME type: " ++ e, mimeProbed := true }
    | Except.ok mime_type =>
      if ¬ (mime_type ∈ VALID_MIME_TYPES) then
        { ok := false, reason := "Invalid MIME type: " ++ mime_type, mimeProbed := true }
      else if ¬ (file_content.take 3 = [0, 0, 0] ∨ file_content.take 3 = [0, 0, 1]) then
        { ok := false, reason := "Invalid video file header", mimeProbed := true }
      else if strict_validation then
        if file_content.length < 1024 then
          { ok := false, reason := "File too small to be a valid video", mimeProbed := true }
        else if ¬ endsWithMarker file_content then
          { ok := false, reason := "Invalid video file termination", mimeProbed := true }
        else
          { ok := true, reason := "", mimeProbed := true }
      else
        { ok := true, reason := "", mimeProbed := true }

/-! ## Constants from src/services/video_processing_service.py -/

/-- video_processing_service.py: SUPPORTED_MIME_TYPES -/
def SUPPORTED_MIME_TYPES : List String :=
  ["video/mp4", "video/quicktime", "video/x-msvideo", "video/x-matroska"]

/-- One entry of VARIANT_CONFIGS (width, height, bitrate, fps). -/
structure VariantConfig where
  width : Nat
  height : Nat
  bitrate : String
  fps : Nat
  deriving DecidableEq, Repr

/-- video_processing_service.py: VARIANT_CONFIGS, an insertion-ordered dict
with keys hd, sd, mobile (iteration order of `VARIANT_CONFIGS.items()`). -/
def VARIANT_CONFIGS : List (String × VariantConfig) :=
  [("hd", { width := 1920, height := 1080, bitrate := "5000k", fps := 30 }),
   ("sd", { width := 1280, height := 720, bitrate := "2500k", fps := 30 }),
   ("mobile", { width := 640, height := 360, bitrate := "1000k", fps := 30 })]

/-- video_processing_service.py: RETRY_CONFIG. -/
structure RetryConfig where
  max_attempts : Nat
  backoff_factor : Nat
  initial_delay : Nat
  deriving DecidableEq, Repr

/-- RETRY_CONFIG = max_attempts 3, backoff_factor 2, initial_delay 1. -/
def RETRY_CONFIG : RetryConfig :=
  { max_attempts := 3, backoff_factor := 2, initial_delay := 1 }

/-! ## The Video model (src/models/video.py) -/

/-- video.py: VIDEO_VARIANTS, the allow-list checked by add_variant. -/
def VIDEO_VARIANTS : List String :=
  ["original", "hd_1080p", "sd_720p", "mobile_480p", "thumbnail"]

/-- video.py: VIDEO_STATUS, the allow-list checked by the status validator. -/
def VIDEO_STATUS : List String :=
  ["pending", "scanning", "processing", "converting", "ready", "failed"]

/-- One VideoVariant (video.py lines 96-109). The metadata, created_at,
cdn_provider and delivery_config fields are not referenced by any claim and
are not modelled. -/
structure VideoVariant where
  quality : String
  url : String
  deriving DecidableEq, Repr

/-- The Video aggregate (video.py lines 111-220), restricted to the fields
the claims are about. processing_history is modelled as the append-ordered
list of history keys (the Python dict is only ever extended with fresh keys). -/
structure Video where
  status : String
  variants : List VideoVariant
  processing_history : List String
  deriving DecidableEq, Repr

/-- add_variant (video.py lines 162-181): rejects a quality that is not in
VIDEO_VARIANTS (raising ValueError); otherwise appends the new variant to
`variants` and the key `variant_<quality>_added` to processing_history.
The returned VideoVariant is ignored by the only caller in the pipeline, so
the embedding returns the updated Video. -/
def Video.add_variant (v : Video) (quality : String) (url : String) :
    Except String Video :=
  if quality ∈ VIDEO_VARIANTS then
    Except.ok { v with
      variants := v.variants ++ [{ quality := quality, url := url }],
      processing_history := v.processing_history ++ ["variant_" ++ quality ++ "_added"] }
  else
    Except.error ("Invalid quality variant: " ++ quality)

/-- Modelled from the spec: process_video calls `video.update_status(...)`
(video_processing_service.py lines 98, 110, 134 and 150) and the test suite
asserts its effect (`test_video.status == "ready"` and `== "failed"` in
tests/test_video_processing.py), but the Video model in src/ defines no such
method. Following spec section 4.2 (the status field always reflects the
current pipeline stage) and the tests, the update is modelled as setting the
status field to the given stage value. -/
def Video.update_status (v : Video) (s : String) : Video := { v with status := s }

/-! ## Pipeline state and environment -/

/-- Mutable state threaded through a process_video execution: the Video
under processing plus counters recording how many times each external stage
was invoked, the sleeps performed by the retry wrappers (in order), and how
many cleanup failures were swallowed and logged. -/
structure PState where
  video : Video
  validateCount : Nat
  scanCount : Nat
  transcodeCount : Nat
  uploadCount : Nat
  cleanupCount : Nat
  cleanupFailuresLogged : Nat
  sleeps : List Nat
  deriving DecidableEq, Repr

/-- Outcomes of the external collaborators, indexed by the per-stage call
counters of PState. validateRes n is the (is_valid, error_msg) pair returned
by the n-th validate_format call (deterministic per input per spec section
4.1, hence constant for a fixed input); scanRes n likewise for scan_security;
ffmpegRes q n is the outcome of the n-th ffmpeg transcode run (for quality q):
ok with the output buffer token, or error when the process raises; uploadRes
q n is the (success, error, url) triple of the n-th upload_variant call;
cleanupFails n tells whether the n-th cleanup_failed_upload call fails
internally. -/
structure Env where
  validateRes : Nat → Bool × String
  scanRes : Nat → Bool × String
  ffmpegRes : String → Nat → Except String String
  uploadRes : String → Nat → Bool × String × String
  cleanupFails : Nat → Bool

/-! ## The retry decorator (video_processing_service.py lines 51-66) -/

/-- One pass of the retry loop: `for attempt in range(max_attempts)` tries
the wrapped call; on an exception it sleeps
initial_delay * backoff_factor ** attempt and continues; when the loop ends
the last exception is re-raised. fuel is the number of attempts remaining,
attempt the current loop index, lastErr the last exception seen. -/
def retryGo {α : Type} (cfg : RetryConfig)
    (f : PState → Except String α × PState) (attempt : Nat) (lastErr : String) :
    Nat → PState → Except String α × PState
  | 0, s => (Except.error lastErr, s)
  | fuel + 1, s =>
    match f s with
    | (Except.ok a, s1) => (Except.ok a, s1)
    | (Except.error e, s1) =>
      retryGo cfg f (attempt + 1) e fuel
        { s1 with sleeps := s1.sleeps ++ [cfg.initial_delay * cfg.backoff_factor ^ attempt] }

/-- The retry decorator applied to a stateful, fallible call. -/
def retryRun {α : Type} (cfg : RetryConfig)
    (f : PState → Except String α × PState) (s : PState) : Except String α × PState :=
  retryGo cfg f 0 "" cfg.max_attempts s

/-! ## validate_format and scan_security
(video_processing_service.py lines 158-211) -/

/-- Shallow embedding of validate_format (lines 158-187). mimeRes is the
outcome of `magic.from_buffer(file_content[:2048], mime=True)`; probeRes is
the outcome of the ffprobe subprocess run: ok (returncode, stderr) or error
when spawning raises. The enclosing try/except turns any raised exception
into (False, "Format validation failed: ..."). -/
def validate_format (mimeRes : Except String String)
    (probeRes : Except String (Int × String)) : Bool × String :=
  match mimeRes with
  | Except.error e => (false, "Format validation failed: " ++ e)
  | Except.ok mime_type =>
    if mime_type ∈ SUPPORTED_MIME_TYPES then
      match probeRes with
      | Except.error e => (false, "Format validation failed: " ++ e)
      | Except.ok probe =>
        if probe.fst ≠ 0 then (false, "Invalid video format: " ++ probe.snd)
        else (true, "")
    else (false, "Unsupported MIME type: " ++ mime_type)

/-- Shallow embedding of scan_security (lines 189-211). scanRes is the
outcome of the external `self._virus_scanner.scan_bytes(file_content)` call:
ok b where b is the malware_detected flag of the returned dict, or error
when the scanner raises (scanner unavailable, scan timeout exception, ...).
The enclosing try/except turns any raised exception into
(False, "Security scan failed: ..."): the scan fails closed. -/
def scan_security (scanRes : Except String Bool) : Bool × String :=
  match scanRes with
  | Except.error e => (false, "Security scan failed: " ++ e)
  | Except.ok malware_detected =>
    if malware_detected then (false, "Malware detected in video content")
    else (true, "")

/-! ## generate_variant (video_processing_service.py lines 213-267) -/

/-- The body of generate_variant for one attempt: runs the ffmpeg transcode
(outcome drawn from the environment at the current transcode counter) and
returns the output buffer token; on an ffmpeg exception it logs and
re-raises. The VideoMetadata built from the output is not referenced by any
claim and is not modelled. -/
def generate_variant_body (env : Env) (quality : String) (_config : VariantConfig)
    (s : PState) : Except String String × PState :=
  (env.ffmpegRes quality s.transcodeCount, { s with transcodeCount := s.transcodeCount + 1 })

/-- generate_variant as decorated in the source: the body wrapped in
@retry(config=RETRY_CONFIG). -/
def generate_variant (env : Env) (quality : String) (config : VariantConfig) :
    PState → Except String String × PState :=
  retryRun RETRY_CONFIG (generate_variant_body env quality config)

/-! ## process_video (video_processing_service.py lines 87-156) -/

/-- The `for quality, config in VARIANT_CONFIGS.items()` loop of
process_video: for each profile, generate the variant, upload it
(`self._storage_service.upload_variant`), raise ValueError on upload
failure, and attach it with `video.add_variant(quality, url, ...)`
(which itself raises for a quality outside VIDEO_VARIANTS). -/
def processVariants (env : Env) : List (String × VariantConfig) → PState →
    Except String Unit × PState
  | [], s => (Except.ok (), s)
  | (quality, config) :: rest, s =>
    match generate_variant env quality config s with
    | (Except.error e, s1) => (Except.error e, s1)
    | (Except.ok _content, s1) =>
      let upload := env.uploadRes quality s1.uploadCount
      let s2 := { s1 with uploadCount := s1.uploadCount + 1 }
      if upload.fst then
        match s2.video.add_variant quality upload.snd.snd with
        | Except.error e => (Except.error e, s2)
        | Except.ok v2 => processVariants env rest { s2 with video := v2 }
      else
        (Except.error ("Failed to upload " ++ quality ++ " variant: " ++ upload.snd.fst), s2)

/-- Modelled from the spec: StorageService.cleanup_failed_upload is what
process_video calls as `self._storage_service.cleanup_failed_upload(video.id)`
(video_processing_service.py line 155) and what the test suite asserts is
called, but StorageService in src/ defines no such method. Spec section 6
specifies `cleanupFailedUpload(videoId) -> void` as best-effort with errors
swallowed and logged, so the model increments the cleanup counter, records a
swallowed failure when the environment says this cleanup call fails
internally, and never raises. -/
def cleanup_failed_upload (env : Env) (s : PState) : PState :=
  { s with
    cleanupCount := s.cleanupCount + 1,
    cleanupFailuresLogged :=
      s.cleanupFailuresLogged + (if env.cleanupFails s.cleanupCount then 1 else 0) }

/-- The `except Exception` handler of process_video (lines 149-156): set the
video status to failed, log the error, call the storage cleanup, and
re-raise the original exception. -/
def process_video_fail (env : Env) (s : PState) (e : String) :
    Except String Bool × PState :=
  let s1 := { s with video := s.video.update_status "failed" }
  (Except.error e, cleanup_failed_upload env s1)

/-- One attempt of the process_video body (the try block, lines 90-147):
status to scanning, validate_format (ValueError on failure), scan_security
(ValueError on failure), status to processing, the variant loop, then status
to ready and return True. Every exception lands in process_video_fail. -/
def process_video_attempt (env : Env) (s : PState) : Except String Bool × PState :=
  let s0 := { s with video := s.video.update_status "scanning" }
  let vres := env.validateRes s0.validateCount
  let s1 := { s0 with validateCount := s0.validateCount + 1 }
  if vres.fst then
    let sres := env.scanRes s1.scanCount
    let s2 := { s1 with scanCount := s1.scanCount + 1 }
    if sres.fst then
      let s3 := { s2 with video := s2.video.update_status "processing" }
      match processVariants env VARIANT_CONFIGS s3 with
      | (Except.ok _, s4) => (Except.ok true, { s4 with video := s4.video.update_status "ready" })
      | (Except.error e, s4) => process_video_fail env s4 e
    else process_video_fail env s2 ("Security scan failed: " ++ sres.snd)
  else process_video_fail env s1 ("Video validation failed: " ++ vres.snd)

/-- process_video as decorated in the source: the body wrapped in
@retry(config=RETRY_CONFIG), so the whole pipeline body is re-run on any
exception, up to 3 attempts. -/
def process_video (env : Env) (s : PState) : Except String Bool × PState :=
  retryRun RETRY_CONFIG (process_video_attempt env) s

/-- A sequence of process_video runs against the same Video document, each
run drawing its external outcomes from its own environment. -/
def run_sequence : List Env → PState → PState
  | [], s => s
  | env :: rest, s => run_sequence rest (process_video env s).snd

/-! ## Concrete videos, states and environments used in the theorems -/

/-- A freshly created Video (video.py lines 132-160): status pending, no
variants, processing_history seeded with the upload_started and
file_validation entries written by the constructor. -/
def freshVideo : Video :=
  { status := "pending", variants := [],
    processing_history := ["upload_started", "file_validation"] }

/-- Pipeline state at the start of a process_video call. -/
def initialState (v : Video) : PState :=
  { video := v, validateCount := 0, scanCount := 0, transcodeCount := 0,
    uploadCount := 0, cleanupCount := 0, cleanupFailuresLogged := 0, sleeps := [] }

/-- initialState of freshVideo. -/
def freshState : PState := initialState freshVideo

/-- Environment of an input on which every external stage succeeds:
validation passes, the scan reports safe, every ffmpeg run produces output
and every upload succeeds with a non-empty CDN URL. -/
def allOkEnv : Env :=
  { validateRes := fun _ => (true, "")
    scanRes := fun _ => (true, "")
    ffmpegRes := fun _ _ => Except.ok "variant-bytes"
    uploadRes := fun _ _ => (true, "", "https://cdn.example.com/variant.mp4")
    cleanupFails := fun _ => false }

/-- Environment of an input rejected by validate_format with the given
message (deterministic judgment of the input, so every call returns the
same rejection); all later stages would succeed. -/
def rejectEnv (msg : String) : Env :=
  { allOkEnv with validateRes := fun _ => (false, msg) }

/-- Environment of an input that passes validation but on which
scan_security reports unsafe with the given message. -/
def scanUnsafeEnv (m : String) : Env :=
  { allOkEnv with scanRes := fun _ => (false, m) }

/-- Environment in which every upload_variant call fails with a transient
storage error. -/
def uploadFailEnv : Env :=
  { allOkEnv with uploadRes := fun _ _ => (false, "Storage error", "") }

/-- Environment in which every ffmpeg transcode run crashes. -/
def transcodeFailEnv : Env :=
  { allOkEnv with ffmpegRes := fun _ _ => Except.error "ffmpeg crashed" }

/-! ## Shared lemmas about the pipeline -/

/-- The zero-fuel retry step returns the last exception unchanged. -/
theorem retryGo_zero {α : Type} (cfg : RetryConfig)
    (f : PState → Except String α × PState) (a : Nat) (le : String) (s : PState) :
    retryGo cfg f a le 0 s = (Except.error le, s) := rfl

/-- retryGo preserves any state projection that the wrapped call and the
sleep bookkeeping preserve. -/
theorem retryGo_proj {α β : Type} (cfg : RetryConfig)
    (f : PState → Except String α × PState) (g : PState → β)
    (hsleep : ∀ (s : PState) (d : Nat), g { s with sleeps := s.sleeps ++ [d] } = g s)
    (hf : ∀ s, g ((f s).snd) = g s) :
    ∀ (a : Nat) (le : String) (fuel : Nat) (s : PState),
      g ((retryGo cfg f a le fuel s).snd) = g s := by
  intro a le fuel
  induction fuel generalizing a le with
  | zero => intro s; rfl
  | succ n ih =>
    intro s
    rcases hfs : f s with ⟨r, s1⟩
    have hs1 : g s1 = g s := by
      have h := hf s; rw [hfs] at h; exact h
    cases r with
    | ok a0 => simp only [retryGo, hfs]; exact hs1
    | error e =>
      have hgo : retryGo cfg f a le (n + 1) s =
          retryGo cfg f (a + 1) e n
            { s1 with sleeps := s1.sleeps ++ [cfg.initial_delay * cfg.backoff_factor ^ a] } := by
        simp only [retryGo, hfs]
      rw [hgo, ih, hsleep]
      exact hs1

/-- generate_variant (the retry-wrapped transcode) leaves the Video
untouched: it only runs ffmpeg, advances the transcode counter and sleeps. -/
theorem generate_variant_video (env : Env) (q : String) (c : VariantConfig)
    (s : PState) : ((generate_variant env q c s).snd).video = s.video :=
  retryGo_proj RETRY_CONFIG (generate_variant_body env q c) (fun t => t.video)
    (fun _ _ => rfl) (fun _ => rfl) 0 "" RETRY_CONFIG.max_attempts s

/-- generate_variant leaves the cleanup counter untouched. -/
theorem generate_variant_cleanup (env : Env) (q : String) (c : VariantConfig)
    (s : PState) : ((generate_variant env q c s).snd).cleanupCount = s.cleanupCount :=
  retryGo_proj RETRY_CONFIG (generate_variant_body env q c) (fun t => t.cleanupCount)
    (fun _ _ => rfl) (fun _ => rfl) 0 "" RETRY_CONFIG.max_attempts s

/-- Running the variant loop whose first profile name is outside
VIDEO_VARIANTS always raises (at the transcode, the upload, or the
add_variant allow-list check) and leaves the Video untouched. -/
theorem processVariants_cons_run (env : Env) (q : String) (c : VariantConfig)
    (rest : List (String × VariantConfig)) (s : PState)
    (r : Except String Unit) (s4 : PState)
    (hq : ¬ q ∈ VIDEO_VARIANTS)
    (h : processVariants env ((q, c) :: rest) s = (r, s4)) :
    (∃ e, r = Except.error e) ∧ s4.video = s.video
      ∧ s4.cleanupCount = s.cleanupCount := by
  simp only [processVariants] at h
  split at h
  case h_1 e s1 heq =>
    have hs1 : s1.video = s.video := by
      have hv := generate_variant_video env q c s; rw [heq] at hv; exact hv
    have hc1 : s1.cleanupCount = s.cleanupCount := by
      have hv := generate_variant_cleanup env q c s; rw [heq] at hv; exact hv
    rw [Prod.mk.injEq] at h
    exact ⟨⟨e, h.1.symm⟩, h.2 ▸ hs1, h.2 ▸ hc1⟩
  case h_2 content s1 heq =>
    have hs1 : s1.video = s.video := by
      have hv := generate_variant_video env q c s; rw [heq] at hv; exact hv
    have hc1 : s1.cleanupCount = s.cleanupCount := by
      have hv := generate_variant_cleanup env q c s; rw [heq] at hv; exact hv
    split at h
    · split at h
      case h_1 e heq2 =>
        rw [Prod.mk.injEq] at h
        refine ⟨⟨e, h.1.symm⟩, ?_, ?_⟩ <;> rw [← h.2]
        · exact hs1
        · exact hc1
      case h_2 v2 heq2 =>
        rw [Video.add_variant, if_neg hq] at heq2
        exact absurd heq2 (by simp)
    · rw [Prod.mk.injEq] at h
      refine ⟨⟨_, h.1.symm⟩, ?_, ?_⟩ <;> rw [← h.2]
      · exact hs1
      · exact hc1

/-- The full variant loop of process_video (profiles hd, sd, mobile) always
raises — its first profile name hd is not in VIDEO_VARIANTS — and leaves the
Video untouched. -/
theorem processVariants_run (env : Env) (s : PState)
    (r : Except String Unit) (s4 : PState)
    (h : processVariants env VARIANT_CONFIGS s = (r, s4)) :
    (∃ e, r = Except.error e) ∧ s4.video = s.video
      ∧ s4.cleanupCount = s.cleanupCount := by
  have hcfg : VARIANT_CONFIGS =
      ("hd", { width := 1920, height := 1080, bitrate := "5000k", fps := 30 }) ::
      [("sd", { width := 1280, height := 720, bitrate := "2500k", fps := 30 }),
       ("mobile", { width := 640, height := 360, bitrate := "1000k", fps := 30 })] := rfl
  rw [hcfg] at h
  exact processVariants_cons_run env "hd" _ _ s r s4 (by decide) h

/-- Every attempt of the process_video body ends in the exception handler:
the result is an error, the final status is failed, processing_history and
variants are unchanged, and the cleanup has been invoked exactly once. -/
theorem attempt_run (env : Env) (s : PState) (r : Except String Bool) (s2 : PState)
    (h : process_video_attempt env s = (r, s2)) :
    (∃ e, r = Except.error e)
    ∧ s2.video.status = "failed"
    ∧ s2.video.processing_history = s.video.processing_history
    ∧ s2.video.variants = s.video.variants
    ∧ s2.cleanupCount = s.cleanupCount + 1 := by
  simp only [process_video_attempt] at h
  split at h
  · split at h
    · split at h
      case h_1 x s4 heq =>
        obtain ⟨⟨e, he⟩, _⟩ := processVariants_run env _ _ _ heq
        exact absurd he (by simp)
      case h_2 e s4 heq =>
        obtain ⟨_, hvid, hcln⟩ := processVariants_run env _ _ _ heq
        simp only [process_video_fail, cleanup_failed_upload] at h
        rw [Prod.mk.injEq] at h
        refine ⟨⟨e, h.1.symm⟩, ?_, ?_, ?_, ?_⟩ <;>
          simp [← h.2, hvid, hcln, Video.update_status]
    · simp only [process_video_fail, cleanup_failed_upload] at h
      rw [Prod.mk.injEq] at h
      refine ⟨⟨_, h.1.symm⟩, ?_, ?_, ?_, ?_⟩ <;>
        simp [← h.2, Video.update_status]
  · simp only [process_video_fail, cleanup_failed_upload] at h
    rw [Prod.mk.injEq] at h
    refine ⟨⟨_, h.1.symm⟩, ?_, ?_, ?_, ?_⟩ <;>
      simp [← h.2, Video.update_status]

/-- Existential form of attempt_run. -/
theorem attempt_spec (env : Env) (s : PState) :
    ∃ e s2, process_video_attempt env s = (Except.error e, s2)
      ∧ s2.video.status = "failed"
      ∧ s2.video.processing_history = s.video.processing_history
      ∧ s2.video.variants = s.video.variants
      ∧ s2.cleanupCount = s.cleanupCount + 1 := by
  obtain ⟨⟨e, he⟩, h1, h2, h3, h4⟩ :=
    attempt_run env s (process_video_attempt env s).fst
      (process_video_attempt env s).snd Prod.mk.eta.symm
  refine ⟨e, (process_video_attempt env s).snd, ?_, h1, h2, h3, h4⟩
  rw [← he]

/-- Behavior of the retry wrapper around a call that always raises, always
marks the video failed, never touches history or variants, and performs one
cleanup per attempt: the wrapped call still raises, the final status is
failed, history and variants are still unchanged, and fuel cleanups have
been performed. -/
theorem retryGo_spec {α : Type} (cfg : RetryConfig)
    (f : PState → Except String α × PState)
    (herr : ∀ s, ∃ e, (f s).fst = Except.error e)
    (hstat : ∀ s, ((f s).snd).video.status = "failed")
    (hhist : ∀ s, ((f s).snd).video.processing_history = s.video.processing_history)
    (hvar : ∀ s, ((f s).snd).video.variants = s.video.variants)
    (hclean : ∀ s, ((f s).snd).cleanupCount = s.cleanupCount + 1) :
    ∀ (a : Nat) (le : String) (fuel : Nat) (s : PState),
      (∃ e, (retryGo cfg f a le fuel s).fst = Except.error e)
      ∧ (fuel ≠ 0 → ((retryGo cfg f a le fuel s).snd).video.status = "failed")
      ∧ ((retryGo cfg f a le fuel s).snd).video.processing_history =
          s.video.processing_history
      ∧ ((retryGo cfg f a le fuel s).snd).video.variants = s.video.variants
      ∧ ((retryGo cfg f a le fuel s).snd).cleanupCount = s.cleanupCount + fuel := by
  intro a le fuel
  induction fuel generalizing a le with
  | zero => intro s; exact ⟨⟨le, rfl⟩, fun hc => absurd rfl hc, rfl, rfl, rfl⟩
  | succ n ih =>
    intro s
    rcases hfs : f s with ⟨r, s1⟩
    obtain ⟨e, he⟩ := herr s
    rw [hfs] at he
    subst he
    have hgo : retryGo cfg f a le (n + 1) s =
        retryGo cfg f (a + 1) e n
          { s1 with sleeps := s1.sleeps ++ [cfg.initial_delay * cfg.backoff_factor ^ a] } := by
      simp only [retryGo, hfs]
    have hs1stat : s1.video.status = "failed" := by
      have h := hstat s; rw [hfs] at h; exact h
    have hs1hist : s1.video.processing_history = s.video.processing_history := by
      have h := hhist s; rw [hfs] at h; exact h
    have hs1var : s1.video.variants = s.video.variants := by
      have h := hvar s; rw [hfs] at h; exact h
    have hs1clean : s1.cleanupCount = s.cleanupCount + 1 := by
      have h := hclean s; rw [hfs] at h; exact h
    obtain ⟨p1, p2, p3, p4, p5⟩ :=
      ih (a + 1) e { s1 with sleeps := s1.sleeps ++ [cfg.initial_delay * cfg.backoff_factor ^ a] }
    rw [hgo]
    refine ⟨p1, fun _ => ?_, ?_, ?_, ?_⟩
    · cases n with
      | zero => rw [retryGo_zero]; exact hs1stat
      | succ m => exact p2 (Nat.succ_ne_zero m)
    · rw [p3]; exact hs1hist
    · rw [p4]; exact hs1var
    · rw [p5]; simp [hs1clean]; omega

/-- Master lemma about a full process_video call (the retry-decorated
pipeline): for every environment and starting state the call raises, the
final status is failed, processing_history and variants are unchanged, and
cleanup has been invoked once per attempt (3 times). In particular the
pipeline can never reach the ready status nor attach any variant, because
the first add_variant call always rejects the profile name hd. -/
theorem process_video_run (env : Env) (s : PState) :
    (∃ e, (process_video env s).fst = Except.error e)
    ∧ ((process_video env s).snd).video.status = "failed"
    ∧ ((process_video env s).snd).video.processing_history =
        s.video.processing_history
    ∧ ((process_video env s).snd).video.variants = s.video.variants
    ∧ ((process_video env s).snd).cleanupCount = s.cleanupCount + 3 := by
  have herr : ∀ t, ∃ e, (process_video_attempt env t).fst = Except.error e := by
    intro t
    obtain ⟨e, s2, hpa, _⟩ := attempt_spec env t
    exact ⟨e, by rw [hpa]⟩
  have hstat : ∀ t, ((process_video_attempt env t).snd).video.status = "failed" := by
    intro t
    obtain ⟨e, s2, hpa, h1, _⟩ := attempt_spec env t
    rw [hpa]; exact h1
  have hhist : ∀ t, ((process_video_attempt env t).snd).video.processing_history =
      t.video.processing_history := by
    intro t
    obtain ⟨e, s2, hpa, _, h2, _⟩ := attempt_spec env t
    rw [hpa]; exact h2
  have hvar : ∀ t, ((process_video_attempt env t).snd).video.variants =
      t.video.variants := by
    intro t
    obtain ⟨e, s2, hpa, _, _, h3, _⟩ := attempt_spec env t
    rw [hpa]; exact h3
  have hclean : ∀ t, ((process_video_attempt env t).snd).cleanupCount =
      t.cleanupCount + 1 := by
    intro t
    obtain ⟨e, s2, hpa, _, _, _, h4⟩ := attempt_spec env t
    rw [hpa]; exact h4
  obtain ⟨p1, p2, p3, p4, p5⟩ :=
    retryGo_spec RETRY_CONFIG (process_video_attempt env)
      herr hstat hhist hvar hclean 0 "" RETRY_CONFIG.max_attempts s
  exact ⟨p1, p2 (by decide), p3, p4, p5⟩

/-- Variants are unchanged by any sequence of process_video runs. -/
theorem run_sequence_variants (envs : List Env) :
    ∀ s : PState, (run_sequence envs s).video.variants = s.video.variants := by
  induction envs with
  | nil => intro s; rfl
  | cons env rest ih =>
    intro s
    show (run_sequence rest (process_video env s).snd).video.variants = s.video.variants
    rw [ih (process_video env s).snd]
    exact (process_video_run env s).2.2.2.1

/-! ## Claim theorems -/

/-- Claim C1 (code bug): the claim states that when validation, scanning and
every transcode and upload succeed, process_video sets the final status to
ready with one variant per configured profile. Evaluating the pipeline in an
environment where every external stage succeeds (allOkEnv) shows the
opposite: the run raises ValueError "Invalid quality variant: hd" at the
first add_variant call — the VARIANT_CONFIGS keys hd, sd, mobile are not in
the VIDEO_VARIANTS allow-list of the Video model — so the final status is
failed and no variant is ever attached, contradicting the claim and the
repository test that asserts status ready with 3 variants. -/
theorem claim_C1_code_bug_eval :
    (process_video allOkEnv freshState).fst = Except.error "Invalid quality variant: hd"
    ∧ ((process_video allOkEnv freshState).snd).video.status = "failed"
    ∧ ((process_video allOkEnv freshState).snd).video.variants = [] :=
  ⟨rfl, rfl, rfl⟩

/-- Claim C2, counterexample: a run whose security scan reports unsafe ends
with status failed, yet processing_history is exactly what it was at video
creation — no entry recording the failing stage was added — refuting the
part of the claim that says a failed status comes with a failure record in
processing_history. -/
theorem claim_C2_counterexample :
    ((process_video (scanUnsafeEnv "Malware detected in video content")
        freshState).snd).video.status = "failed"
    ∧ ((process_video (scanUnsafeEnv "Malware detected in video content")
        freshState).snd).video.processing_history =
        ["upload_started", "file_validation"] :=
  ⟨rfl, rfl⟩

/-- Claim C2 as amended: every execution of process_video (all of which
fail) raises, leaves the status at the terminal value failed (via the
spec-modelled update_status), and appends nothing to processing_history:
the failing stage and its error are only logged, so status == failed does
not imply a failure entry in processing_history. -/
theorem claim_C2_amended (env : Env) (s : PState) :
    (∃ e, (process_video env s).fst = Except.error e)
    ∧ ((process_video env s).snd).video.status = "failed"
    ∧ ((process_video env s).snd).video.processing_history =
        s.video.processing_history :=
  ⟨(process_video_run env s).1, (process_video_run env s).2.1,
    (process_video_run env s).2.2.1⟩

/-- Claim C3 (code bug): the claim states that an input rejected by the
validator is not re-validated before the terminal failed outcome. Evaluating
process_video on an input rejected by validate_format shows validate_format
is invoked 3 times — the retry decorator on process_video re-runs the
rejected validation twice more — before the terminal failure (the scanner is
still never reached). -/
theorem claim_C3_code_bug_eval :
    ((process_video (rejectEnv "Unsupported MIME type: application/pdf")
        freshState).snd).validateCount = 3
    ∧ ((process_video (rejectEnv "Unsupported MIME type: application/pdf")
        freshState).snd).scanCount = 0
    ∧ (process_video (rejectEnv "Unsupported MIME type: application/pdf")
        freshState).fst =
        Except.error "Video validation failed: Unsupported MIME type: application/pdf"
    ∧ ((process_video (rejectEnv "Unsupported MIME type: application/pdf")
        freshState).snd).video.status = "failed" :=
  ⟨rfl, rfl, rfl, rfl⟩

/-- Claim C4, counterexample: the claim states the retry wraps only the
transcode+upload unit, not the validation or scan stages. In an environment
where only the upload fails, the scan and the validation are each executed
3 times: the upload failure is retried by the decorator on process_video
itself, which re-runs validation and scanning as well. -/
theorem claim_C4_counterexample :
    ((process_video uploadFailEnv freshState).snd).scanCount = 3
    ∧ ((process_video uploadFailEnv freshState).snd).validateCount = 3
    ∧ (process_video uploadFailEnv freshState).fst =
        Except.error "Failed to upload hd variant: Storage error" :=
  ⟨rfl, rfl, rfl⟩

/-- Claim C4 as amended: only the transcode stage (generate_variant) is
retried as a unit — up to max_attempts = 3 with delay
initial_delay * backoff_factor ^ attempt — while the upload sits outside
that unit and is retried only by the identical decorator wrapping all of
process_video; a transcode that keeps failing is attempted 9 times in total
(3 inner attempts per each of the 3 outer attempts), after which the final
status is failed. -/
theorem claim_C4_amended :
    (∀ (env : Env) (q : String) (c : VariantConfig) (s : PState) (e0 e1 e2 : String),
      env.ffmpegRes q s.transcodeCount = Except.error e0 →
      env.ffmpegRes q (s.transcodeCount + 1) = Except.error e1 →
      env.ffmpegRes q (s.transcodeCount + 2) = Except.error e2 →
      generate_variant env q c s =
        (Except.error e2,
         { s with transcodeCount := s.transcodeCount + 3,
                  sleeps := s.sleeps ++
                    [RETRY_CONFIG.initial_delay * RETRY_CONFIG.backoff_factor ^ 0,
                     RETRY_CONFIG.initial_delay * RETRY_CONFIG.backoff_factor ^ 1,
                     RETRY_CONFIG.initial_delay * RETRY_CONFIG.backoff_factor ^ 2] }))
    ∧ (process_video transcodeFailEnv freshState).fst = Except.error "ffmpeg crashed"
    ∧ ((process_video transcodeFailEnv freshState).snd).video.status = "failed"
    ∧ ((process_video transcodeFailEnv freshState).snd).transcodeCount = 9 := by
  refine ⟨?_, rfl, rfl, rfl⟩
  intro env q c s e0 e1 e2 h0 h1 h2
  simp [generate_variant, retryRun, RETRY_CONFIG, retryGo, generate_variant_body, h0, h1, h2]

/-- Witness for claim C4: the generic exhaustion statement evaluated on the
environment whose ffmpeg runs always crash. -/
theorem claim_C4_witness :
    generate_variant transcodeFailEnv "hd"
      { width := 1920, height := 1080, bitrate := "5000k", fps := 30 } freshState =
      (Except.error "ffmpeg crashed",
       { freshState with transcodeCount := freshState.transcodeCount + 3,
                         sleeps := freshState.sleeps ++
                           [RETRY_CONFIG.initial_delay * RETRY_CONFIG.backoff_factor ^ 0,
                            RETRY_CONFIG.initial_delay * RETRY_CONFIG.backoff_factor ^ 1,
                            RETRY_CONFIG.initial_delay * RETRY_CONFIG.backoff_factor ^ 2] }) :=
  claim_C4_amended.1 transcodeFailEnv "hd"
    { width := 1920, height := 1080, bitrate := "5000k", fps := 30 } freshState
    "ffmpeg crashed" "ffmpeg crashed" "ffmpeg crashed" rfl rfl rfl

/-- Claim C5: scan_security returns safe = false both when the scanner
reports malware and when the scan is inconclusive (the scanner raises, e.g.
unavailable or timed out) — it fails closed; and a video whose scan reports
unsafe ends with final status failed, an empty variants collection, and the
scan judgment as the reported error. -/
theorem claim_C5 :
    ((scan_security (Except.ok true)).fst = false
      ∧ ∀ e : String, (scan_security (Except.error e)).fst = false)
    ∧ ∀ (m : String) (v : Video), v.variants = [] →
        (process_video (scanUnsafeEnv m) (initialState v)).fst =
          Except.error ("Security scan failed: " ++ m)
        ∧ ((process_video (scanUnsafeEnv m) (initialState v)).snd).video.status = "failed"
        ∧ ((process_video (scanUnsafeEnv m) (initialState v)).snd).video.variants = [] := by
  refine ⟨⟨rfl, fun e => rfl⟩, ?_⟩
  intro m v hv
  refine ⟨rfl, rfl, ?_⟩
  have hbase : ((process_video (scanUnsafeEnv m) (initialState v)).snd).video.variants =
      v.variants := rfl
  rw [hbase, hv]

/-- Witness for claim C5 at a concrete unsafe-scan run on a fresh video. -/
theorem claim_C5_witness :
    (scan_security (Except.ok true)).fst = false
    ∧ (process_video (scanUnsafeEnv "Malware detected in video content")
        (initialState freshVideo)).fst =
        Except.error ("Security scan failed: " ++ "Malware detected in video content")
    ∧ ((process_video (scanUnsafeEnv "Malware detected in video content")
        (initialState freshVideo)).snd).video.variants = [] :=
  ⟨claim_C5.1.1,
   (claim_C5.2 "Malware detected in video content" freshVideo rfl).1,
   (claim_C5.2 "Malware detected in video content" freshVideo rfl).2.2⟩

/-- Claim C6: the variants collection is append-only — a successful
add_variant call appends exactly one entry and never removes or mutates
existing ones — and quality tags stay pairwise distinct across any sequence
of process_video runs, retried runs included (in this code base no pipeline
run can append a variant at all, because add_variant rejects every
configured profile name, so the collection is unchanged). -/
theorem claim_C6 :
    (∀ (v : Video) (q u : String) (w : Video),
       v.add_variant q u = Except.ok w →
       w.variants = v.variants ++ [{ quality := q, url := u }])
    ∧ ∀ (envs : List Env) (s : PState),
        (s.video.variants.map VideoVariant.quality).Nodup →
        ∃ t, (run_sequence envs s).video.variants = s.video.variants ++ t
          ∧ ((run_sequence envs s).video.variants.map VideoVariant.quality).Nodup := by
  constructor
  · intro v q u w hw
    unfold Video.add_variant at hw
    split at hw
    · simp only [Except.ok.injEq] at hw
      rw [← hw]
    · exact absurd hw (by simp)
  · intro envs s h
    refine ⟨[], ?_, ?_⟩
    · rw [run_sequence_variants]
      simp
    · rw [run_sequence_variants]
      exact h

/-- A Video equal to the result of adding the hd_1080p variant to a fresh
video, used as the concrete witness input for claim C6. -/
def variantAddedVideo : Video :=
  { status := "pending",
    variants := [{ quality := "hd_1080p", url := "https://cdn.example.com/variant.mp4" }],
    processing_history := ["upload_started", "file_validation", "variant_hd_1080p_added"] }

/-- Witness for claim C6: add_variant on a fresh video with an allow-listed
quality appends that single entry, and a concrete pipeline run preserves
the empty (hence duplicate-free) variant collection. -/
theorem claim_C6_witness :
    variantAddedVideo.variants = freshVideo.variants ++
      [{ quality := "hd_1080p", url := "https://cdn.example.com/variant.mp4" }]
    ∧ ∃ t, (run_sequence [allOkEnv] freshState).video.variants =
        freshState.video.variants ++ t
      ∧ ((run_sequence [allOkEnv] freshState).video.variants.map
          VideoVariant.quality).Nodup :=
  ⟨claim_C6.1 freshVideo "hd_1080p" "https://cdn.example.com/variant.mp4"
     variantAddedVideo rfl,
   claim_C6.2 [allOkEnv] freshState (by simp [freshState, initialState, freshVideo])⟩

/-- Claim C7 (with the cleanup spec-modelled, since StorageService in src/
has no cleanup_failed_upload): every attempt of process_video that fails —
and every attempt fails — invokes the storage cleanup exactly once (a full
call invokes it once per attempt, 3 times), and the exception handler
reports the original stage error with status failed for every cleanup
outcome, including environments in which the cleanup call itself fails:
its failure is only counted in the swallowed-failures log and never
replaces the reported error or the failed status. -/
theorem claim_C7 :
    (∀ (env : Env) (s : PState),
       (∃ e, (process_video_attempt env s).fst = Except.error e)
       ∧ ((process_video_attempt env s).snd).cleanupCount = s.cleanupCount + 1)
    ∧ (∀ (env : Env) (s : PState),
       ((process_video env s).snd).cleanupCount = s.cleanupCount + 3)
    ∧ (∀ (env : Env) (cf : Nat → Bool) (s : PState) (e : String),
       (process_video_fail { env with cleanupFails := cf } s e).fst = Except.error e
       ∧ ((process_video_fail { env with cleanupFails := cf } s e).snd).video.status =
           "failed"
       ∧ ((process_video_fail { env with cleanupFails := cf } s e).snd).cleanupCount =
           s.cleanupCount + 1) := by
  refine ⟨?_, ?_, ?_⟩
  · intro env s
    obtain ⟨e, s2, hpa, _, _, _, h4⟩ := attempt_spec env s
    rw [hpa]
    exact ⟨⟨e, rfl⟩, h4⟩
  · intro env s
    exact (process_video_run env s).2.2.2.2
  · intro env cf s e
    exact ⟨rfl, rfl, rfl⟩

/-- Claim C8: validate_format rejects any MIME type outside the allow-list
with the Unsupported MIME type reason, and on an input whose validation is
rejected, process_video never invokes the security scanner nor the variant
transcoder — across all retry attempts — and reports the validation error. -/
theorem claim_C8 :
    (∀ (mime : String) (probeRes : Except String (Int × String)),
       ¬ mime ∈ SUPPORTED_MIME_TYPES →
       validate_format (Except.ok mime) probeRes =
         (false, "Unsupported MIME type: " ++ mime))
    ∧ ∀ (msg : String) (v : Video),
        ((process_video (rejectEnv msg) (initialState v)).snd).scanCount = 0
        ∧ ((process_video (rejectEnv msg) (initialState v)).snd).transcodeCount = 0
        ∧ (process_video (rejectEnv msg) (initialState v)).fst =
            Except.error ("Video validation failed: " ++ msg) := by
  constructor
  · intro mime probeRes hmime
    simp [validate_format, hmime]
  · intro msg v
    exact ⟨rfl, rfl, rfl⟩

/-- Witness for claim C8 at the concrete MIME type application/pdf. -/
theorem claim_C8_witness :
    validate_format (Except.ok "application/pdf") (Except.ok (0, "")) =
      (false, "Unsupported MIME type: " ++ "application/pdf")
    ∧ ((process_video (rejectEnv "Unsupported MIME type: application/pdf")
        (initialState freshVideo)).snd).scanCount = 0 :=
  ⟨claim_C8.1 "application/pdf" (Except.ok (0, "")) (by decide),
   (claim_C8.2 "Unsupported MIME type: application/pdf" freshVideo).1⟩

/-- Claim C9: validate_video_file rejects the empty byte buffer with the
Empty file content reason as its very first check — before the external
MIME probe (the only network-facing call in the function) is reached — and
a video whose validation rejects never reaches the security scanner. -/
theorem claim_C9 :
    (∀ (filename : String) (strict : Bool) (mimeRes : Except String String),
       validate_video_file [] filename strict mimeRes =
         { ok := false, reason := "Empty file content", mimeProbed := false })
    ∧ ∀ (msg : String) (v : Video),
        ((process_video (rejectEnv msg) (initialState v)).snd).scanCount = 0 :=
  ⟨fun _ _ _ => rfl, fun _ _ => rfl⟩

/-- Claim C10: any byte content and filename accepted by
validate_video_file under strict validation is between 1024 bytes and
5 GiB, starts with the byte triple 00 00 00 or 00 00 01, has its last 32
bytes ending in the mdat or moov marker, and carries one of the allowed
file extensions. -/
theorem claim_C10 (content : List Nat) (filename : String)
    (mimeRes : Except String String)
    (h : (validate_video_file content filename true mimeRes).ok = true) :
    1024 ≤ content.length ∧ content.length ≤ MAX_VIDEO_SIZE_BYTES
    ∧ (content.take 3 = [0, 0, 0] ∨ content.take 3 = [0, 0, 1])
    ∧ (mdatMarker.isSuffixOf (last32 content) = true
        ∨ moovMarker.isSuffixOf (last32 content) = true)
    ∧ extOf filename ∈ ALLOWED_VIDEO_FORMATS := by
  simp only [validate_video_file] at h
  split at h
  · exact absurd h (by simp)
  next hempty =>
  split at h
  · exact absurd h (by simp)
  next hsize =>
  split at h
  · exact absurd h (by simp)
  next hext =>
  split at h
  · exact absurd h (by simp)
  next mime =>
  split at h
  · exact absurd h (by simp)
  next hmime =>
  split at h
  · exact absurd h (by simp)
  next hhdr =>
  split at h
  next hstrict =>
    split at h
    · exact absurd h (by simp)
    next hsmall =>
    split at h
    · exact absurd h (by simp)
    next hterm =>
    refine ⟨by omega, by omega, not_not.mp hhdr, ?_, not_not.mp hext⟩
    have hmk : endsWithMarker content = true := by
      by_contra hc
      exact hterm (by simpa using hc)
    simpa [endsWithMarker, Bool.or_eq_true] using hmk
  next hstrict => exact absurd trivial hstrict

/-- A concrete 1024-byte buffer accepted by strict validation: 1020 zero
bytes followed by the moov marker. -/
def acceptedContent : List Nat := List.replicate 1020 0 ++ [109, 111, 111, 118]

set_option maxRecDepth 100000 in
/-- Witness for claim C10 at a concrete accepted upload. -/
theorem claim_C10_witness :
    1024 ≤ acceptedContent.length ∧ acceptedContent.length ≤ MAX_VIDEO_SIZE_BYTES
    ∧ (acceptedContent.take 3 = [0, 0, 0] ∨ acceptedContent.take 3 = [0, 0, 1])
    ∧ (mdatMarker.isSuffixOf (last32 acceptedContent) = true
        ∨ moovMarker.isSuffixOf (last32 acceptedContent) = true)
    ∧ extOf "clip.mp4" ∈ ALLOWED_VIDEO_FORMATS :=
  claim_C10 acceptedContent "clip.mp4" (Except.ok "video/mp4") (by decide)

end VideoService
